import Mathlib

/-!
Shallow embedding of `iron-diesel-middleware` (`src/lib.rs`).

The crate wires an external r2d2 connection pool into iron's per-request
extension store.  The external collaborators (r2d2's `Pool::new` and
`Pool::get`, the diesel connection type) are modelled as parameters of the
embedded functions; the crate's own code (`DieselMiddleware::new`,
`DieselMiddleware::new_with_config`, `BeforeMiddleware::before`,
`DieselReqExt::db_conn`) is translated line by line.
-/

/-- Tag identifying the diesel connection type `T` that parameterizes
`DieselMiddleware<T>`.  Iron's typemap keys entries by this type
(`impl typemap::Key for DieselMiddleware<T>`), so a tag value stands for
one concrete instantiation of `T`. -/
abbrev ConnTy := Nat

/-- Identity of an `Arc`-allocated r2d2 pool: the pointer identity of the
`Arc<r2d2::Pool<...>>` produced by `Arc::new` in `new_with_config`. -/
abbrev PoolId := Nat

/-- Opaque value of an external `r2d2::Pool` as built by `r2d2::Pool::new`. -/
abbrev R2d2Pool := Nat

/-- An opaque pooled connection handed out by `r2d2::Pool::get`. -/
abbrev Conn := Nat

/-- Opaque `r2d2::Config` data; the crate passes it through verbatim. -/
structure Config where
  data : Nat
deriving DecidableEq

/-- `r2d2::Config::default()`. -/
def Config.default : Config := ⟨0⟩

/-- Errors surfaced by the external pooling library (`Box<Error>` in the
source signature of the initializers). -/
abbrev PoolError := Nat

/-- Errors of iron's `IronResult`; `before` never constructs one. -/
abbrev IronError := Nat

/-- `r2d2_diesel::ConnectionManager<T>`: records the connection string it was
built from; everything else about it is external. -/
structure ConnectionManager where
  connection_str : String
deriving DecidableEq

/-- `r2d2_diesel::ConnectionManager::<T>::new(connection_str)`. -/
def ConnectionManager.new (s : String) : ConnectionManager := ⟨s⟩

/-- State of the `Arc` runtime for pool handles: contents of each allocated
cell, strong reference counts, and the next fresh identity. -/
structure ArcWorld where
  heap : PoolId → Option R2d2Pool
  refCount : PoolId → Nat
  next : PoolId

/-- `Arc::new(pool)`: allocate a fresh cell holding `p` with strong count 1. -/
def ArcWorld.alloc (w : ArcWorld) (p : R2d2Pool) : PoolId × ArcWorld :=
  (w.next,
    { heap := fun i => if i = w.next then some p else w.heap i
      refCount := fun i => if i = w.next then 1 else w.refCount i
      next := w.next + 1 })

/-- `Arc::clone(&h)`: increments the strong count of the cell and returns a
handle to the same cell. -/
def ArcWorld.clone (w : ArcWorld) (i : PoolId) : PoolId × ArcWorld :=
  (i, { w with refCount := fun j => if j = i then w.refCount j + 1 else w.refCount j })

/-- Dropping one `Arc` handle to cell `i`: decrements its strong count. -/
def ArcWorld.dropHandle (w : ArcWorld) (i : PoolId) : ArcWorld :=
  { w with refCount := fun j => if j = i then w.refCount j - 1 else w.refCount j }

/-- `Value<T>(DieselPool<T>)`: the wrapper the crate stores in the request's
extension map; it holds one `Arc` handle to the pool. -/
structure Value where
  pool : PoolId
deriving DecidableEq

/-- `DieselMiddleware<T>`: `connTy` records the type parameter `T` the
instance is instantiated at (its typemap key); `pool` is its shared
`Arc` pool handle (`pub pool: DieselPool<T>`). -/
structure DieselMiddleware where
  connTy : ConnTy
  pool : PoolId
deriving DecidableEq

/-- The request's typemap (`req.extensions`), restricted to the keys this
crate uses: the entry stored under the type `DieselMiddleware<T>` for each
connection-type tag `T`. -/
structure Extensions where
  store : ConnTy → Option Value

/-- `TypeMap::insert::<DieselMiddleware<T>>(v)`: stores `v` under the key `T`
and returns the displaced previous value, as iron's typemap does. -/
def Extensions.insert (e : Extensions) (k : ConnTy) (v : Value) :
    Option Value × Extensions :=
  (e.store k, ⟨fun j => if j = k then some v else e.store j⟩)

/-- `TypeMap::get::<DieselMiddleware<T>>()`. -/
def Extensions.get (e : Extensions) (k : ConnTy) : Option Value := e.store k

/-- An iron `Request`, restricted to the state this crate touches. -/
structure Request where
  extensions : Extensions

/-- Result of a Rust expression that either produces a value or panics. -/
inductive PanicOr (α : Type) where
  | panics
  | returns (v : α)
deriving DecidableEq

namespace DieselMiddleware

/-- `DieselMiddleware::new_with_config(connection_str, config)`.
`poolNew` is the behavior of the external `r2d2::Pool::new`; `T` is the
connection type the call is instantiated at; `w` is the `Arc` runtime state
in which `Arc::new` allocates.  `try!` propagates the error of `Pool::new`;
on success the built pool is wrapped in a fresh `Arc`. -/
def new_with_config (T : ConnTy)
    (poolNew : Config → ConnectionManager → Except PoolError R2d2Pool)
    (connection_str : String) (config : Config) (w : ArcWorld) :
    Except PoolError DieselMiddleware × ArcWorld :=
  let manager := ConnectionManager.new connection_str
  match poolNew config manager with
  | Except.error e => (Except.error e, w)
  | Except.ok pool =>
      let al := w.alloc pool
      (Except.ok { connTy := T, pool := al.1 }, al.2)

/-- `DieselMiddleware::new(connection_str)`: delegates to `new_with_config`
with `r2d2::Config::default()`. -/
def new (T : ConnTy)
    (poolNew : Config → ConnectionManager → Except PoolError R2d2Pool)
    (connection_str : String) (w : ArcWorld) :
    Except PoolError DieselMiddleware × ArcWorld :=
  new_with_config T poolNew connection_str Config.default w

/-- `BeforeMiddleware::before for DieselMiddleware<T>`:
`req.extensions.insert::<DieselMiddleware<T>>(Value(self.pool.clone()))`
then `Ok(())`.  The ignored return of `insert` (the displaced old value, if
any) is dropped, releasing its `Arc` handle. -/
def before (mw : DieselMiddleware) (req : Request) (w : ArcWorld) :
    Except IronError Unit × Request × ArcWorld :=
  let pc := w.clone mw.pool
  let ins := req.extensions.insert mw.connTy ⟨pc.1⟩
  let w2 := match ins.1 with
    | some v => pc.2.dropHandle v.pool
    | none => pc.2
  (Except.ok (), ⟨ins.2⟩, w2)

end DieselMiddleware

namespace Request

/-- `DieselReqExt::db_conn for Request`:
`self.extensions.get::<DieselMiddleware<T>>().unwrap()` followed by
`poll.get().unwrap()`.  `σ` is the internal state of the external r2d2
pools and `r2get` the behavior of `r2d2::Pool::get` on it (`none` stands
for `Err(GetTimeout)`); each `unwrap` panics on the failing variant. -/
def db_conn {σ : Type} (r2get : PoolId → σ → Option Conn × σ)
    (T : ConnTy) (req : Request) (ps : σ) : PanicOr Conn × Request × σ :=
  match req.extensions.get T with
  | none => (PanicOr.panics, req, ps)
  | some v =>
      match r2get v.pool ps with
      | (none, ps2) => (PanicOr.panics, req, ps2)
      | (some c, ps2) => (PanicOr.returns c, req, ps2)

end Request

/-- A request whose extension store is empty. -/
def emptyReq : Request := ⟨⟨fun _ => none⟩⟩

/-- An `Arc` runtime with nothing allocated. -/
def emptyArcWorld : ArcWorld := ⟨fun _ => none, fun _ => 0, 0⟩

/-- C1: if the extension store of a request contains no entry under the
middleware's type key, `db_conn` panics (it does not return an error value),
and as a pure function of the request it does so on every such call. -/
theorem db_conn_panics_without_registration {σ : Type}
    (r2get : PoolId → σ → Option Conn × σ) (T : ConnTy) (req : Request) (ps : σ)
    (h : req.extensions.get T = none) :
    (Request.db_conn r2get T req ps).1 = PanicOr.panics := by
  unfold Request.db_conn
  rw [h]

/-- Witness for C1 at a concrete empty request. -/
theorem db_conn_panics_without_registration_witness :
    emptyReq.extensions.get 0 = none ∧
    (Request.db_conn (fun _ (s : Nat) => (some 0, s)) 0 emptyReq 0).1 = PanicOr.panics :=
  ⟨rfl, db_conn_panics_without_registration (fun _ (s : Nat) => (some 0, s)) 0 emptyReq 0 rfl⟩

/-- C2: if the registration entry is present but the pool's checkout fails
(`r2d2::Pool::get` returns its timeout error), `db_conn` panics; it never
returns a degraded or fallback result. -/
theorem db_conn_panics_on_checkout_timeout {σ : Type}
    (r2get : PoolId → σ → Option Conn × σ) (T : ConnTy) (req : Request) (ps : σ)
    (v : Value) (h : req.extensions.get T = some v)
    (h2 : (r2get v.pool ps).1 = none) :
    (Request.db_conn r2get T req ps).1 = PanicOr.panics := by
  simp only [Request.db_conn, h]
  rcases hq : r2get v.pool ps with ⟨o, ps2⟩
  rw [hq] at h2
  cases o with
  | none => rfl
  | some c => simp at h2

/-- Witness for C2: a pool whose checkout always times out. -/
theorem db_conn_panics_on_checkout_timeout_witness :
    (⟨⟨fun _ => some ⟨7⟩⟩⟩ : Request).extensions.get 0 = some ⟨7⟩ ∧
    ((fun (_ : PoolId) (s : Nat) => ((none : Option Conn), s)) 7 0).1 = none ∧
    (Request.db_conn (fun _ (s : Nat) => ((none : Option Conn), s)) 0 ⟨⟨fun _ => some ⟨7⟩⟩⟩ 0).1
      = PanicOr.panics :=
  ⟨rfl, rfl,
    db_conn_panics_on_checkout_timeout (fun _ (s : Nat) => ((none : Option Conn), s))
      0 ⟨⟨fun _ => some ⟨7⟩⟩⟩ 0 ⟨7⟩ rfl rfl⟩

/-- C9: if the registration entry is present and the pool's checkout succeeds
with connection `c`, `db_conn` returns exactly `c` (the connection the pool
handed out, unmodified) without panicking, leaving the request unchanged and
the pool in the state the checkout produced. -/
theorem db_conn_returns_checked_out_connection {σ : Type}
    (r2get : PoolId → σ → Option Conn × σ) (T : ConnTy) (req : Request) (ps : σ)
    (v : Value) (c : Conn) (ps2 : σ)
    (h : req.extensions.get T = some v)
    (h2 : r2get v.pool ps = (some c, ps2)) :
    Request.db_conn r2get T req ps = (PanicOr.returns c, req, ps2) := by
  simp only [Request.db_conn, h, h2]

/-- Witness for C9 at a concrete request and a pool that hands out
connection 42. -/
theorem db_conn_returns_checked_out_connection_witness :
    (⟨⟨fun _ => some ⟨7⟩⟩⟩ : Request).extensions.get 0 = some ⟨7⟩ ∧
    (fun (_ : PoolId) (s : Nat) => (some 42, s)) 7 3 = ((some 42 : Option Conn), 3) ∧
    Request.db_conn (fun _ (s : Nat) => (some 42, s)) 0 ⟨⟨fun _ => some ⟨7⟩⟩⟩ 3
      = (PanicOr.returns 42, ⟨⟨fun _ => some ⟨7⟩⟩⟩, 3) :=
  ⟨rfl, rfl,
    db_conn_returns_checked_out_connection (fun _ (s : Nat) => (some 42, s))
      0 ⟨⟨fun _ => some ⟨7⟩⟩⟩ 3 ⟨7⟩ 42 3 rfl rfl⟩

/-- C10: `db_conn` takes the request by shared reference and never modifies
it: on every call and every outcome (both panic paths included), the request
it leaves behind — extension store included — is exactly the one it was
given, even though the external pool state may change. -/
theorem db_conn_preserves_request {σ : Type}
    (r2get : PoolId → σ → Option Conn × σ) (T : ConnTy) (req : Request) (ps : σ) :
    (Request.db_conn r2get T req ps).2.1 = req := by
  unfold Request.db_conn
  split
  · rfl
  · split <;> rfl

/-- C4: the registration hook `before` returns `Ok(())` unconditionally, for
every middleware instance, request and `Arc` state: it has no failure path. -/
theorem before_always_ok (mw : DieselMiddleware) (req : Request) (w : ArcWorld) :
    (DieselMiddleware.before mw req w).1 = Except.ok () := rfl

/-- C5: after `before` runs on a request (one that does not yet carry an
entry under the middleware's type key), the extension store holds, under
that key, a value carrying a clone of the middleware's shared pool handle:
the very same pool identity (not a new pool), whose `Arc` strong count was
incremented by the clone. -/
theorem before_inserts_pool_clone (mw : DieselMiddleware) (req : Request) (w : ArcWorld)
    (h : req.extensions.get mw.connTy = none) :
    ((DieselMiddleware.before mw req w).2.1).extensions.get mw.connTy = some ⟨mw.pool⟩ ∧
    ((DieselMiddleware.before mw req w).2.2).refCount mw.pool = w.refCount mw.pool + 1 := by
  simp only [Extensions.get] at h
  simp [DieselMiddleware.before, Extensions.insert, Extensions.get, ArcWorld.clone, h]

/-- Witness for C5 on an empty request. -/
theorem before_inserts_pool_clone_witness :
    emptyReq.extensions.get 0 = none ∧
    (((DieselMiddleware.before ⟨0, 5⟩ emptyReq emptyArcWorld).2.1).extensions.get 0
        = some ⟨5⟩ ∧
      ((DieselMiddleware.before ⟨0, 5⟩ emptyReq emptyArcWorld).2.2).refCount 5
        = emptyArcWorld.refCount 5 + 1) :=
  ⟨rfl, before_inserts_pool_clone ⟨0, 5⟩ emptyReq emptyArcWorld rfl⟩

/-- C6: one configured middleware instance owns a single pool handle
(`mw.pool`), and every request on which the hook runs stores that same pool
identity: any two requests, in any `Arc` states, observe one and the same
pool — it is shared, never re-created per request. -/
theorem before_same_pool_across_requests (mw : DieselMiddleware)
    (r1 r2 : Request) (w1 w2 : ArcWorld) :
    ((DieselMiddleware.before mw r1 w1).2.1).extensions.get mw.connTy = some ⟨mw.pool⟩ ∧
    ((DieselMiddleware.before mw r1 w1).2.1).extensions.get mw.connTy =
      ((DieselMiddleware.before mw r2 w2).2.1).extensions.get mw.connTy := by
  simp [DieselMiddleware.before, Extensions.insert, Extensions.get, ArcWorld.clone]

/-- C3: for every connection string and configuration, `new_with_config`
either propagates the underlying pool-construction error unchanged — and
then allocates nothing, producing no pool handle — or returns `Ok` with a
middleware whose handle points at the freshly built pool (a shareable `Arc`
cell with strong count 1). -/
theorem new_with_config_ok_or_propagates_error (T : ConnTy)
    (poolNew : Config → ConnectionManager → Except PoolError R2d2Pool)
    (s : String) (cfg : Config) (w : ArcWorld) :
    (∃ e, poolNew cfg (ConnectionManager.new s) = Except.error e ∧
      DieselMiddleware.new_with_config T poolNew s cfg w = (Except.error e, w)) ∨
    (∃ p, poolNew cfg (ConnectionManager.new s) = Except.ok p ∧
      ∃ mw w2, DieselMiddleware.new_with_config T poolNew s cfg w = (Except.ok mw, w2) ∧
        w2.heap mw.pool = some p ∧ w2.refCount mw.pool = 1) := by
  cases hp : poolNew cfg (ConnectionManager.new s) with
  | error e =>
      exact Or.inl ⟨e, rfl, by simp [DieselMiddleware.new_with_config, hp]⟩
  | ok p =>
      refine Or.inr ⟨p, rfl, ⟨T, w.next⟩, (w.alloc p).2, ?_, ?_, ?_⟩
      · simp [DieselMiddleware.new_with_config, hp, ArcWorld.alloc]
      · simp [ArcWorld.alloc]
      · simp [ArcWorld.alloc]

/-- C7: `new` is exactly `new_with_config` applied to the default
configuration, for every connection string, external pool behavior and
`Arc` state. -/
theorem new_eq_new_with_config_default (T : ConnTy)
    (poolNew : Config → ConnectionManager → Except PoolError R2d2Pool)
    (s : String) (w : ArcWorld) :
    DieselMiddleware.new T poolNew s w =
      DieselMiddleware.new_with_config T poolNew s Config.default w := rfl

/-- C8, counterexample: two middleware instances instantiated at the same
connection type (tag 0) but holding different pools (0 and 1) collide —
after both hooks run on one request, the first instance's pool handle is no
longer retrievable under its type key; the second insertion displaced it. -/
theorem before_same_type_key_collides :
    ((DieselMiddleware.before ⟨0, 1⟩
        (DieselMiddleware.before ⟨0, 0⟩ emptyReq emptyArcWorld).2.1
        (DieselMiddleware.before ⟨0, 0⟩ emptyReq emptyArcWorld).2.2).2.1).extensions.get
      (0 : ConnTy) ≠ some ⟨(0 : PoolId)⟩ := by
  decide

/-- C8, amended: two middleware instances whose connection types differ
(hence whose typemap keys differ) do not collide — after both hooks run on
the same request, each instance's pool handle is retrievable under its own
type key. -/
theorem before_distinct_type_keys_no_collision (mw1 mw2 : DieselMiddleware)
    (req : Request) (w : ArcWorld) (h : mw1.connTy ≠ mw2.connTy) :
    ((DieselMiddleware.before mw2 (DieselMiddleware.before mw1 req w).2.1
        (DieselMiddleware.before mw1 req w).2.2).2.1).extensions.get mw1.connTy
      = some ⟨mw1.pool⟩ ∧
    ((DieselMiddleware.before mw2 (DieselMiddleware.before mw1 req w).2.1
        (DieselMiddleware.before mw1 req w).2.2).2.1).extensions.get mw2.connTy
      = some ⟨mw2.pool⟩ := by
  simp [DieselMiddleware.before, Extensions.insert, Extensions.get, ArcWorld.clone, h]

/-- Witness for the amended C8 with two distinct connection types. -/
theorem before_distinct_type_keys_no_collision_witness :
    (0 : ConnTy) ≠ (1 : ConnTy) ∧
    (((DieselMiddleware.before ⟨1, 9⟩
          (DieselMiddleware.before ⟨0, 5⟩ emptyReq emptyArcWorld).2.1
          (DieselMiddleware.before ⟨0, 5⟩ emptyReq emptyArcWorld).2.2).2.1).extensions.get 0
        = some ⟨5⟩ ∧
      ((DieselMiddleware.before ⟨1, 9⟩
          (DieselMiddleware.before ⟨0, 5⟩ emptyReq emptyArcWorld).2.1
          (DieselMiddleware.before ⟨0, 5⟩ emptyReq emptyArcWorld).2.2).2.1).extensions.get 1
        = some ⟨9⟩) :=
  ⟨by decide,
    before_distinct_type_keys_no_collision ⟨0, 5⟩ ⟨1, 9⟩ emptyReq emptyArcWorld (by decide)⟩
